import Mathlib

/-!
# Classified errors of `internal/domain/error.go`

A shallow embedding of the `domain` package's `Error` value type, its seven
constructors, its predicates and accessors, together with the three standard
library functions the package relies on (`strconv.Itoa`, `strings.Join` and
`errors.Is`), and of the event `MovieCreated` of `internal/event`.

Go strings are embedded as Lean `String`s.  The package only concatenates
strings and compares them for equality, and both operations act the same way
on the characters of a string as on its bytes.

Go's `int` is embedded in `Int`.  The package performs no arithmetic on its
integer arguments (they are only rendered), so a statement proved for every
`Int` holds for every machine integer.
-/

set_option linter.dupNamespace false

namespace Academy

/-! ## Constants (error.go, lines 8-18) -/

/-- Group tag of domain errors. -/
def domain : String := "domain"
/-- Group tag of infrastructure errors. -/
def infrastructure : String := "infrastructure"
/-- Kind tag `notFound`. -/
def notFound : String := "not found"
/-- Kind tag `alreadyExists`. -/
def alreadyExists : String := "already exists"
/-- Kind tag `outOfRange`. -/
def outOfRange : String := "out of range"
/-- Kind tag `invalidFormat`. -/
def invalidFormat : String := "invalid format"
/-- Kind tag `required`. -/
def required : String := "required"

/-! ## The `Error` struct (error.go, lines 20-27) -/

/-- The struct `Error`: four string fields. -/
structure Error where
  group : String
  kind : String
  entity : String
  description : String
deriving DecidableEq

/-- The zero value of `Error`: Go initialises every omitted field of a
composite literal to the empty string. -/
def Error.zero : Error := ⟨"", "", "", ""⟩

/-! ## Standard library functions used by the package -/

/-- One decimal digit as a character: the byte `'0' + d`. -/
def digit (d : Nat) : Char := Char.ofNat (48 + d)

/-- The digit loop of `strconv.formatBits` in base 10 on the magnitude `u`:
the least significant digit is produced first and written at the right end of
the buffer, and the loop goes on with `u / 10` while `u >= 10`. -/
def formatBits (u : Nat) : List Char :=
  if u < 10 then [digit u] else formatBits (u / 10) ++ [digit (u % 10)]
termination_by u
decreasing_by omega

/-- Go's `strconv.Itoa(i)`, that is `FormatInt(int64(i), 10)`: the digits of
the magnitude of `i`, with a `-` in front when `i` is negative. -/
def Itoa (i : Int) : String :=
  if i < 0 then String.mk ('-' :: formatBits i.natAbs) else String.mk (formatBits i.natAbs)

/-- Go's `strings.Join(elems, sep)`: the empty string for no element, the
element itself for one element, and otherwise the first element followed by
`sep` and the next element, for every remaining element in order. -/
def stringsJoin (elems : List String) (sep : String) : String :=
  match elems with
  | [] => ""
  | [x] => x
  | x :: rest => rest.foldl (fun b s => b ++ sep ++ s) x

/-- Go's `==` on two `Error` structs: struct values are equal when their
corresponding fields are equal. -/
def Error.eq (x y : Error) : Bool :=
  x.group == y.group && x.kind == y.kind && x.entity == y.entity &&
    x.description == y.description

/-- Go's `errors.Is(err, target)` on values of the interface type `error` whose
dynamic type is `Error` (`none` is the nil interface).  With a nil on either
side the result is `err == target`.  Otherwise `Error` is a comparable type, so
the first step of the chain walk answers `true` when `err == target`; `Error`
has neither an `Is` nor an `Unwrap` method, so the walk stops there with
`false`. -/
def errorsIs (err target : Option Error) : Bool :=
  match err, target with
  | some x, some y => Error.eq x y
  | none, none => true
  | _, _ => false

/-! ## Accessors and predicates (error.go, lines 29-71) -/

/-- Method `Entity()` returns the entity. -/
def Error.Entity (e : Error) : String := e.entity

/-- Method `IsDomain()`: the group is `domain`. -/
def Error.IsDomain (e : Error) : Bool := e.group == domain

/-- Method `IsInfrastructure()`: the group is `infrastructure`. -/
def Error.IsInfrastructure (e : Error) : Bool := e.group == infrastructure

/-- Method `IsNotFound()`: the kind is `notFound`. -/
def Error.IsNotFound (e : Error) : Bool := e.kind == notFound

/-- Method `IsAlreadyExists()`: the kind is `alreadyExists`. -/
def Error.IsAlreadyExists (e : Error) : Bool := e.kind == alreadyExists

/-- Method `IsOutOfRange()`: the kind is `outOfRange`. -/
def Error.IsOutOfRange (e : Error) : Bool := e.kind == outOfRange

/-- Method `IsInvalidFormat()`: the kind is `invalidFormat`. -/
def Error.IsInvalidFormat (e : Error) : Bool := e.kind == invalidFormat

/-- Method `IsRequired()`: the kind is `required`. -/
def Error.IsRequired (e : Error) : Bool := e.kind == required

/-- Method `Error()` returns the description. -/
def Error.Error (e : Academy.Error) : String := e.description

/-! ## Constructors (error.go, lines 73-158) -/

/-- Constructor `NewDomain(e, d)`: the kind is left at its zero value. -/
def NewDomain (e d : String) : Error :=
  { group := domain, kind := "", entity := e, description := d }

/-- Constructor `NewInfrastructure(d)`: kind and entity are left at their zero values. -/
def NewInfrastructure (d : String) : Error :=
  { group := infrastructure, kind := "", entity := "", description := d }

/-- Constructor `NewNotFound(e)`. -/
def NewNotFound (e : String) : Error :=
  let entityDesc := if e != "" then e ++ " " else ""
  { group := domain, kind := notFound, entity := e,
    description := entityDesc ++ "not found" }

/-- Constructor `NewAlreadyExists(e)`. -/
def NewAlreadyExists (e : String) : Error :=
  let entityDesc := if e != "" then e ++ " " else ""
  { group := domain, kind := alreadyExists, entity := e,
    description := entityDesc ++ "already exists" }

/-- Constructor `NewOutOfRange(e, a, b)`. -/
def NewOutOfRange (e : String) (a b : Int) : Error :=
  let entityDesc := if e != "" then e ++ " is " else ""
  { group := domain, kind := outOfRange, entity := e,
    description := entityDesc ++ "out of range [" ++ Itoa a ++ "," ++ Itoa b ++ ")" }

/-- Constructor `NewInvalidFormat(e, exp...)`: the variadic arguments arrive as a slice. -/
def NewInvalidFormat (e : String) (exp : List String) : Error :=
  let entityDesc := if e != "" then e ++ " contains an " else ""
  { group := domain, kind := invalidFormat, entity := e,
    description := entityDesc ++ "invalid format, expected [" ++ stringsJoin exp "," ++ "]" }

/-- Constructor `NewRequired(e)`. -/
def NewRequired (e : String) : Error :=
  let entityDesc := if e != "" then e ++ " is " else ""
  { group := domain, kind := required, entity := e,
    description := entityDesc ++ "required" }

/-! ## Constructor calls -/

/-- A call of one of the seven constructors of the package, with its
arguments. -/
inductive Call where
  | NewDomain (e d : String)
  | NewInfrastructure (d : String)
  | NewNotFound (e : String)
  | NewAlreadyExists (e : String)
  | NewOutOfRange (e : String) (a b : Int)
  | NewInvalidFormat (e : String) (exp : List String)
  | NewRequired (e : String)

/-- The `Error` a constructor call returns. -/
def Call.run : Call → Error
  | .NewDomain e d => Academy.NewDomain e d
  | .NewInfrastructure d => Academy.NewInfrastructure d
  | .NewNotFound e => Academy.NewNotFound e
  | .NewAlreadyExists e => Academy.NewAlreadyExists e
  | .NewOutOfRange e a b => Academy.NewOutOfRange e a b
  | .NewInvalidFormat e exp => Academy.NewInvalidFormat e exp
  | .NewRequired e => Academy.NewRequired e

/-- The name of one of the seven constructors. -/
inductive Ctor where
  | NewDomain
  | NewInfrastructure
  | NewNotFound
  | NewAlreadyExists
  | NewOutOfRange
  | NewInvalidFormat
  | NewRequired
deriving DecidableEq

/-- The constructor a call invokes. -/
def Call.ctor : Call → Ctor
  | .NewDomain _ _ => Ctor.NewDomain
  | .NewInfrastructure _ => Ctor.NewInfrastructure
  | .NewNotFound _ => Ctor.NewNotFound
  | .NewAlreadyExists _ => Ctor.NewAlreadyExists
  | .NewOutOfRange _ _ _ => Ctor.NewOutOfRange
  | .NewInvalidFormat _ _ => Ctor.NewInvalidFormat
  | .NewRequired _ => Ctor.NewRequired

/-- The five kind predicates of an error, in the order `IsNotFound`,
`IsAlreadyExists`, `IsOutOfRange`, `IsInvalidFormat`, `IsRequired`. -/
def Error.kindPredicates (x : Academy.Error) : List Bool :=
  [x.IsNotFound, x.IsAlreadyExists, x.IsOutOfRange, x.IsInvalidFormat, x.IsRequired]

/-! ## The event `MovieCreated` (event/movie_created.go) -/

/-- Modelled from the spec: the declaration of `valueobject.MovieID` is not
among the sources.  It is taken as a defined type over `string`, so that the
conversion `string(id)` keeps the value. -/
abbrev MovieID : Type := String

/-- Modelled from the spec: the declaration of `valueobject.DisplayName` is not
among the sources.  It is taken as a defined type over `string`, so that the
conversion `string(name)` keeps the value. -/
abbrev DisplayName : Type := String

/-- Modelled from the spec: the declaration of `valueobject.ReleaseYear` is not
among the sources.  It is taken as a defined type over `int`, so that the
conversion `int(year)` keeps the value. -/
abbrev ReleaseYear : Type := Int

/-- Go's `time.Time`, as far as the event uses it: an instant, in nanoseconds
since the Unix epoch, and the name of the location it is shown in. -/
structure Time where
  nanoseconds : Int
  location : String
deriving DecidableEq

/-- Go's `t.UTC()`: the same instant, with the location set to UTC. -/
def Time.UTC (t : Time) : Time := { t with location := "UTC" }

/-- The struct `MovieCreated` (movie_created.go, lines 9-16). -/
structure MovieCreated where
  ID : String
  DisplayName : String
  Director : String
  ReleaseYear : Int
  CreateTime : Time
deriving DecidableEq

/-- Constructor `NewMovieCreated(id, name, director, year)`; the reading
`time.Now()` of the clock is passed in as `now`. -/
def NewMovieCreated (now : Time) (id : MovieID) (name director : DisplayName)
    (year : ReleaseYear) : MovieCreated :=
  { ID := id, DisplayName := name, Director := director, ReleaseYear := year,
    CreateTime := now.UTC }

/-- Method `Kind()` returns the constant `movie-created`. -/
def MovieCreated.Kind (_c : MovieCreated) : String := "movie-created"

/-- Method `AggregateID()` returns the field `ID`. -/
def MovieCreated.AggregateID (c : MovieCreated) : String := c.ID

/-! ## Decimal renderings, as the specification words them -/

/-- The number a run of decimal digits denotes, most significant digit
first. -/
def digitsValue (cs : List Char) : Nat :=
  cs.foldl (fun v c => 10 * v + (c.toNat - 48)) 0

/-- The run `cs` is the decimal rendering of the natural number `n`: it is not
empty, it holds digits only, it has no leading zero (a run that starts with
`0` is `0` itself), and it denotes `n`. -/
def IsDecimal (cs : List Char) (n : Nat) : Prop :=
  cs ≠ [] ∧ (∀ c ∈ cs, c.isDigit = true) ∧ (cs.head? = some '0' → cs = ['0']) ∧
    digitsValue cs = n

instance (cs : List Char) (n : Nat) : Decidable (IsDecimal cs n) := by
  unfold IsDecimal
  infer_instance

/-- The string `s` is the decimal rendering of the integer `a`: a leading `-`
followed by the rendering of the magnitude when `a` is negative, and the
rendering of `a` with no sign otherwise. -/
def IsDecimalInt (s : String) (a : Int) : Prop :=
  (a < 0 ∧ s.data.head? = some '-' ∧ IsDecimal s.data.tail a.natAbs) ∨
    (0 ≤ a ∧ IsDecimal s.data a.natAbs)

instance (s : String) (a : Int) : Decidable (IsDecimalInt s a) := by
  unfold IsDecimalInt
  infer_instance

/-- The items of `ts` in order, separated by single commas, with no separator
in front or behind: the concatenation of the list with a comma put between
every two neighbours. -/
def commaSeparated (ts : List String) : String :=
  String.join (ts.intersperse ",")

/-! ## Equality under `errors.Is` -/

/-- C1: `errors.Is(x, y)` on two `Error` values is true exactly when group,
kind, entity and description are pairwise equal; an error is equal to the
result of the same constructor call on the same inputs; and two errors that
agree on group, kind and entity are equal exactly when their descriptions are
(so two that differ only in description are not equal). -/
theorem errorsIs_iff_fields_equal :
    (∀ x y : Error, errorsIs (some x) (some y) = true ↔
      (x.group = y.group ∧ x.kind = y.kind ∧ x.entity = y.entity ∧
        x.description = y.description)) ∧
    (∀ c : Call, errorsIs (some c.run) (some c.run) = true) ∧
    errorsIs (some (NewInfrastructure "custom type"))
      (some (NewInfrastructure "custom type")) = true ∧
    (∀ g k e d d2 : String,
      errorsIs (some ⟨g, k, e, d⟩) (some ⟨g, k, e, d2⟩) = decide (d = d2)) := by
  refine ⟨?_, ?_, ?_, ?_⟩
  · intro x y
    cases x; cases y
    simp [errorsIs, Error.eq, and_assoc]
  · intro c
    simp [errorsIs, Error.eq]
  · simp [errorsIs, Error.eq]
  · intro g k e d d2
    simp [errorsIs, Error.eq, BEq.beq]

/-! ## Classification of constructed errors -/

/-- C2: each kind-specific constructor returns a domain-group error for which
its own kind predicate is true and the four other kind predicates are false,
on every input. -/
theorem kind_constructors_classified (e : String) (a b : Int) (exp : List String) :
    ((NewNotFound e).IsDomain = true ∧ (NewNotFound e).IsInfrastructure = false ∧
      (NewNotFound e).IsNotFound = true ∧ (NewNotFound e).IsAlreadyExists = false ∧
      (NewNotFound e).IsOutOfRange = false ∧ (NewNotFound e).IsInvalidFormat = false ∧
      (NewNotFound e).IsRequired = false) ∧
    ((NewAlreadyExists e).IsDomain = true ∧ (NewAlreadyExists e).IsInfrastructure = false ∧
      (NewAlreadyExists e).IsNotFound = false ∧ (NewAlreadyExists e).IsAlreadyExists = true ∧
      (NewAlreadyExists e).IsOutOfRange = false ∧
      (NewAlreadyExists e).IsInvalidFormat = false ∧
      (NewAlreadyExists e).IsRequired = false) ∧
    ((NewOutOfRange e a b).IsDomain = true ∧ (NewOutOfRange e a b).IsInfrastructure = false ∧
      (NewOutOfRange e a b).IsNotFound = false ∧
      (NewOutOfRange e a b).IsAlreadyExists = false ∧
      (NewOutOfRange e a b).IsOutOfRange = true ∧
      (NewOutOfRange e a b).IsInvalidFormat = false ∧
      (NewOutOfRange e a b).IsRequired = false) ∧
    ((NewInvalidFormat e exp).IsDomain = true ∧
      (NewInvalidFormat e exp).IsInfrastructure = false ∧
      (NewInvalidFormat e exp).IsNotFound = false ∧
      (NewInvalidFormat e exp).IsAlreadyExists = false ∧
      (NewInvalidFormat e exp).IsOutOfRange = false ∧
      (NewInvalidFormat e exp).IsInvalidFormat = true ∧
      (NewInvalidFormat e exp).IsRequired = false) ∧
    ((NewRequired e).IsDomain = true ∧ (NewRequired e).IsInfrastructure = false ∧
      (NewRequired e).IsNotFound = false ∧ (NewRequired e).IsAlreadyExists = false ∧
      (NewRequired e).IsOutOfRange = false ∧ (NewRequired e).IsInvalidFormat = false ∧
      (NewRequired e).IsRequired = true) := by
  refine ⟨⟨?_, ?_, ?_, ?_, ?_, ?_, ?_⟩, ⟨?_, ?_, ?_, ?_, ?_, ?_, ?_⟩,
    ⟨?_, ?_, ?_, ?_, ?_, ?_, ?_⟩, ⟨?_, ?_, ?_, ?_, ?_, ?_, ?_⟩,
    ⟨?_, ?_, ?_, ?_, ?_, ?_, ?_⟩⟩ <;> rfl

/-- C3: `NewDomain(e, d)` keeps the entity, renders `d` verbatim, is in the
domain group, is not in the infrastructure group, and has no kind. -/
theorem NewDomain_verbatim (e d : String) :
    (NewDomain e d).Entity = e ∧ (NewDomain e d).Error = d ∧
    (NewDomain e d).IsDomain = true ∧ (NewDomain e d).IsInfrastructure = false ∧
    (NewDomain e d).IsNotFound = false ∧ (NewDomain e d).IsAlreadyExists = false ∧
    (NewDomain e d).IsOutOfRange = false ∧ (NewDomain e d).IsInvalidFormat = false ∧
    (NewDomain e d).IsRequired = false := by
  refine ⟨rfl, rfl, ?_, ?_, ?_, ?_, ?_, ?_, ?_⟩ <;> rfl

/-- C4: `NewInfrastructure(d)` renders `d` verbatim, has an empty entity, is in
the infrastructure group only and has no kind; and every error returned by one
of the seven constructors that is in the infrastructure group has an empty
entity and no kind. -/
theorem infrastructure_no_entity_no_kind (d : String) (c : Call)
    (h : c.run.IsInfrastructure = true) :
    ((NewInfrastructure d).Error = d ∧ (NewInfrastructure d).Entity = "" ∧
      (NewInfrastructure d).IsInfrastructure = true ∧
      (NewInfrastructure d).IsDomain = false ∧
      (NewInfrastructure d).IsNotFound = false ∧
      (NewInfrastructure d).IsAlreadyExists = false ∧
      (NewInfrastructure d).IsOutOfRange = false ∧
      (NewInfrastructure d).IsInvalidFormat = false ∧
      (NewInfrastructure d).IsRequired = false) ∧
    (c.run.Entity = "" ∧ c.run.IsNotFound = false ∧ c.run.IsAlreadyExists = false ∧
      c.run.IsOutOfRange = false ∧ c.run.IsInvalidFormat = false ∧
      c.run.IsRequired = false) := by
  constructor
  · refine ⟨rfl, rfl, ?_, ?_, ?_, ?_, ?_, ?_, ?_⟩ <;> rfl
  · cases c with
    | NewInfrastructure d2 => refine ⟨rfl, ?_, ?_, ?_, ?_, ?_⟩ <;> rfl
    | NewDomain e d2 => exact absurd h (Bool.eq_false_iff.mp rfl)
    | NewNotFound e => exact absurd h (Bool.eq_false_iff.mp rfl)
    | NewAlreadyExists e => exact absurd h (Bool.eq_false_iff.mp rfl)
    | NewOutOfRange e a b => exact absurd h (Bool.eq_false_iff.mp rfl)
    | NewInvalidFormat e exp => exact absurd h (Bool.eq_false_iff.mp rfl)
    | NewRequired e => exact absurd h (Bool.eq_false_iff.mp rfl)

/-- Witness of C4 at `NewInfrastructure("i am a custom error")`. -/
theorem infrastructure_no_entity_no_kind_witness :
    (Call.NewInfrastructure "i am a custom error").run.IsInfrastructure = true ∧
    (Call.NewInfrastructure "i am a custom error").run.Entity = "" ∧
    (NewInfrastructure "custom type").Error = "custom type" :=
  ⟨by decide,
    (infrastructure_no_entity_no_kind "custom type"
      (Call.NewInfrastructure "i am a custom error") (by decide)).2.1,
    (infrastructure_no_entity_no_kind "custom type"
      (Call.NewInfrastructure "i am a custom error") (by decide)).1.1⟩

/-- C5: for the error returned by any of the seven constructors on any input,
exactly one of `IsDomain()` and `IsInfrastructure()` is true. -/
theorem group_predicates_exclusive_exhaustive (c : Call) :
    (c.run.IsDomain = true ∧ c.run.IsInfrastructure = false) ∨
    (c.run.IsDomain = false ∧ c.run.IsInfrastructure = true) := by
  cases c with
  | NewInfrastructure d => exact Or.inr ⟨rfl, rfl⟩
  | NewDomain e d => exact Or.inl ⟨rfl, rfl⟩
  | NewNotFound e => exact Or.inl ⟨rfl, rfl⟩
  | NewAlreadyExists e => exact Or.inl ⟨rfl, rfl⟩
  | NewOutOfRange e a b => exact Or.inl ⟨rfl, rfl⟩
  | NewInvalidFormat e exp => exact Or.inl ⟨rfl, rfl⟩
  | NewRequired e => exact Or.inl ⟨rfl, rfl⟩

/-! ## Decimal rendering of `strconv.Itoa` -/

theorem formatBits_small {u : Nat} (h : u < 10) : formatBits u = [digit u] := by
  rw [formatBits, if_pos h]

theorem formatBits_large {u : Nat} (h : 10 ≤ u) :
    formatBits u = formatBits (u / 10) ++ [digit (u % 10)] := by
  rw [formatBits, if_neg (by omega)]

theorem digit_isDigit {d : Nat} (h : d < 10) : (digit d).isDigit = true := by
  interval_cases d <;> decide

theorem digit_toNat {d : Nat} (h : d < 10) : (digit d).toNat - 48 = d := by
  interval_cases d <;> decide

theorem digitsValue_snoc (cs : List Char) (c : Char) :
    digitsValue (cs ++ [c]) = 10 * digitsValue cs + (c.toNat - 48) := by
  simp [digitsValue, List.foldl_append]

/-- The digit loop renders every natural number in decimal. -/
theorem formatBits_isDecimal (u : Nat) : IsDecimal (formatBits u) u := by
  induction u using Nat.strong_induction_on with
  | _ u ih =>
    by_cases h : u < 10
    · rw [formatBits_small h]
      refine ⟨by simp, ?_, ?_, ?_⟩
      · intro c hc
        rw [List.mem_singleton] at hc
        rw [hc]
        exact digit_isDigit h
      · intro h0
        simpa using h0
      · simp [digitsValue, digit_toNat h]
    · have hge : 10 ≤ u := by omega
      obtain ⟨hne, hdig, hlead, hval⟩ := ih (u / 10) (by omega)
      rw [formatBits_large hge]
      refine ⟨by simp, ?_, ?_, ?_⟩
      · intro c hc
        rcases List.mem_append.mp hc with hc | hc
        · exact hdig c hc
        · rw [List.mem_singleton] at hc
          rw [hc]
          exact digit_isDigit (Nat.mod_lt _ (by omega))
      · intro h0
        exfalso
        obtain ⟨x, xs, hx⟩ := List.exists_cons_of_ne_nil hne
        rw [hx] at h0 hlead hval
        have h1 : x :: xs = ['0'] := hlead (by simpa using h0)
        rw [h1] at hval
        have h2 : u / 10 = 0 := by
          rw [← hval]
          decide
        omega
      · rw [digitsValue_snoc, hval, digit_toNat (Nat.mod_lt _ (by omega))]
        omega

/-- The rendering `strconv.Itoa` returns is the decimal rendering of its
argument. -/
theorem Itoa_isDecimalInt (a : Int) : IsDecimalInt (Itoa a) a := by
  unfold IsDecimalInt Itoa
  by_cases h : a < 0
  · left
    rw [if_pos h]
    exact ⟨h, rfl, formatBits_isDecimal _⟩
  · right
    rw [if_neg h]
    exact ⟨by omega, formatBits_isDecimal _⟩

/-! ## Rendered descriptions -/

theorem entityDesc_append (e sep rest : String) :
    (if (e != "") = true then e ++ sep else "") ++ rest =
      if e = "" then rest else e ++ (sep ++ rest) := by
  by_cases h : e = ""
  · subst h
    simp
  · simp [h, String.append_assoc]

theorem foldl_join_data (sep : String) (rest : List String) (acc : String) :
    (rest.foldl (fun b s => b ++ sep ++ s) acc).data =
      acc.data ++ (rest.map (fun s => sep.data ++ s.data)).flatten := by
  induction rest generalizing acc with
  | nil => simp
  | cons y ys ih => simp [ih, List.append_assoc]

theorem stringsJoin_cons_data (sep x : String) (rest : List String) :
    (stringsJoin (x :: rest) sep).data =
      x.data ++ (rest.map (fun s => sep.data ++ s.data)).flatten := by
  cases rest with
  | nil => simp [stringsJoin]
  | cons y ys => simp only [stringsJoin]; exact foldl_join_data sep (y :: ys) x

theorem commaSeparated_cons_data (x : String) (rest : List String) :
    (commaSeparated (x :: rest)).data =
      x.data ++ (rest.map (fun s => ",".data ++ s.data)).flatten := by
  induction rest generalizing x with
  | nil => simp [commaSeparated]
  | cons y ys ih =>
    have h := ih y
    simp only [commaSeparated, String.data_join, List.intersperse, List.map_cons,
      List.flatten_cons] at h ⊢
    rw [h, List.append_assoc]

/-- The join of `strings.Join` with a comma is the comma-separated list of the
items. -/
theorem stringsJoin_comma (ts : List String) : stringsJoin ts "," = commaSeparated ts := by
  cases ts with
  | nil => rfl
  | cons x rest =>
    apply String.ext
    rw [stringsJoin_cons_data, commaSeparated_cons_data]

/-- C6: `NewOutOfRange(e, a, b)` renders `out of range [<a>,<b>)`, with the
entity and ` is ` in front when the entity is not empty, where `<a>` and `<b>`
are the decimal renderings of `a` and `b`, whatever the order of `a` and `b`;
the entity is kept. -/
theorem NewOutOfRange_rendering (e : String) (a b : Int) :
    (NewOutOfRange e a b).Error =
      (if e = "" then "out of range [" ++ Itoa a ++ "," ++ Itoa b ++ ")"
        else e ++ " is out of range [" ++ Itoa a ++ "," ++ Itoa b ++ ")") ∧
    IsDecimalInt (Itoa a) a ∧ IsDecimalInt (Itoa b) b ∧
    Itoa 0 = "0" ∧
    (NewOutOfRange e a b).Entity = e ∧
    (NewOutOfRange "" 0 0).Error = "out of range [0,0)" ∧
    (NewOutOfRange "foo" (-10) (-50)).Error = "foo is out of range [-10,-50)" := by
  refine ⟨?_, Itoa_isDecimalInt a, Itoa_isDecimalInt b, ?_, rfl, ?_, ?_⟩
  · simp only [NewOutOfRange, Error.Error, entityDesc_append]
    by_cases h : e = ""
    · simp [h]
    · simp [h, String.append_assoc]
  · simp [Itoa, formatBits, digit]
  · simp [NewOutOfRange, Error.Error, Itoa, formatBits, digit]
  · simp [NewOutOfRange, Error.Error, Itoa, formatBits, digit]

/-- C7: `NewInvalidFormat(e, ts...)` renders `invalid format, expected [<J>]`,
with the entity and ` contains an ` in front when the entity is not empty,
where `<J>` is the items of `ts` in order separated by single commas (empty
for no item); the entity is kept. -/
theorem NewInvalidFormat_rendering (e : String) (ts : List String) :
    (NewInvalidFormat e ts).Error =
      (if e = "" then "invalid format, expected [" ++ commaSeparated ts ++ "]"
        else e ++ " contains an invalid format, expected [" ++ commaSeparated ts ++ "]") ∧
    commaSeparated [] = "" ∧
    (NewInvalidFormat e ts).Entity = e ∧
    (NewInvalidFormat "foo" ["string", "bool", "custom_type"]).Error =
      "foo contains an invalid format, expected [string,bool,custom_type]" := by
  refine ⟨?_, rfl, rfl, by decide⟩
  simp only [NewInvalidFormat, Error.Error, entityDesc_append, stringsJoin_comma]
  by_cases h : e = ""
  · simp [h]
  · simp [h, String.append_assoc]

/-- C8: `NewNotFound`, `NewAlreadyExists` and `NewRequired` render the literal
templates `not found`, `already exists` and `required` for an empty entity,
and `<e> not found`, `<e> already exists` and `<e> is required` otherwise; the
entity is kept. -/
theorem entity_only_renderings (e : String) :
    (NewNotFound e).Error = (if e = "" then "not found" else e ++ " not found") ∧
    (NewNotFound e).Entity = e ∧
    (NewAlreadyExists e).Error =
      (if e = "" then "already exists" else e ++ " already exists") ∧
    (NewAlreadyExists e).Entity = e ∧
    (NewRequired e).Error = (if e = "" then "required" else e ++ " is required") ∧
    (NewRequired e).Entity = e := by
  refine ⟨?_, rfl, ?_, rfl, ?_, rfl⟩
  · simp only [NewNotFound, Error.Error, entityDesc_append]
    by_cases h : e = "" <;> simp [h]
  · simp only [NewAlreadyExists, Error.Error, entityDesc_append]
    by_cases h : e = "" <;> simp [h]
  · simp only [NewRequired, Error.Error, entityDesc_append]
    by_cases h : e = "" <;> simp [h]

/-! ## The empty bracket list of `NewInvalidFormat` -/

/-- Two invalid-format errors for one entity have the same description exactly
when the joins of their expected types are the same string. -/
theorem NewInvalidFormat_Error_eq_iff (e : String) (ts ts2 : List String) :
    (NewInvalidFormat e ts).Error = (NewInvalidFormat e ts2).Error ↔
      stringsJoin ts "," = stringsJoin ts2 "," := by
  simp only [NewInvalidFormat, Error.Error]
  constructor
  · intro h
    have hd := congrArg String.data h
    simp only [String.data_append, List.append_assoc] at hd
    have h1 := List.append_cancel_left (List.append_cancel_left hd)
    exact String.ext (List.append_cancel_right h1)
  · intro h
    rw [h]

theorem stringsJoin_eq_empty_iff (ts : List String) :
    stringsJoin ts "," = "" ↔ ts = [] ∨ ts = [""] := by
  cases ts with
  | nil => simp [stringsJoin]
  | cons x rest =>
    rw [String.ext_iff, stringsJoin_cons_data]
    cases rest with
    | nil =>
      simp only [List.map_nil, List.flatten_nil, List.append_nil]
      rw [← String.ext_iff]
      simp
    | cons y ys => simp

/-- C9, as stated, fails: the single empty expected type `[""]` is not the
empty list, yet `NewInvalidFormat("baz", "")` renders the empty bracket list
and has the description of `NewInvalidFormat("baz")`. -/
theorem NewInvalidFormat_empty_brackets_counterexample :
    ¬ (∀ (e : String) (ts : List String),
      (NewInvalidFormat e ts).Error = (NewInvalidFormat e []).Error → ts = []) ∧
    (NewInvalidFormat "baz" [""]).Error = "baz contains an invalid format, expected []" ∧
    (NewInvalidFormat "baz" [""]).Error = (NewInvalidFormat "baz" []).Error := by
  refine ⟨?_, by decide, by decide⟩
  intro h
  exact absurd (h "baz" [""] (by decide)) (by decide)

/-- C9, amended: `NewInvalidFormat(e, ts...)` has the description of
`NewInvalidFormat(e)` exactly when `ts` is empty or is the single empty
string; and every `ts` renders as its items separated by commas between the
brackets, an empty item giving an empty segment. -/
theorem NewInvalidFormat_empty_brackets_iff (e : String) (ts : List String) :
    ((NewInvalidFormat e ts).Error = (NewInvalidFormat e []).Error ↔
      (ts = [] ∨ ts = [""])) ∧
    (NewInvalidFormat e ts).Error =
      (if e = "" then "invalid format, expected [" ++ commaSeparated ts ++ "]"
        else e ++ " contains an invalid format, expected [" ++ commaSeparated ts ++ "]") ∧
    commaSeparated ["", "x"] = ",x" ∧ commaSeparated ["a", "", "b"] = "a,,b" := by
  refine ⟨?_, ?_, by decide, by decide⟩
  · rw [NewInvalidFormat_Error_eq_iff, ← stringsJoin_eq_empty_iff]
    rfl
  · simp only [NewInvalidFormat, Error.Error, entityDesc_append, stringsJoin_comma]
    by_cases h : e = ""
    · simp [h]
    · simp [h, String.append_assoc]

/-! ## Out-of-range errors with different bounds -/

/-- A string is the decimal rendering of at most one integer. -/
theorem IsDecimalInt_unique {s : String} {a b : Int} (ha : IsDecimalInt s a)
    (hb : IsDecimalInt s b) : a = b := by
  have sign_clash : ∀ {x y : Int}, s.data.head? = some '-' → IsDecimal s.data y.natAbs →
      x = y := by
    intro x y hh hd
    exfalso
    obtain ⟨c, cs, hcs⟩ := List.exists_cons_of_ne_nil hd.1
    rw [hcs] at hh
    have hc : c = '-' := by simpa using hh
    have := hd.2.1 c (by rw [hcs]; exact List.mem_cons_self _ _)
    rw [hc] at this
    exact absurd this (by decide)
  rcases ha with ⟨ha0, hah, had⟩ | ⟨ha0, had⟩ <;> rcases hb with ⟨hb0, hbh, hbd⟩ | ⟨hb0, hbd⟩
  · have : a.natAbs = b.natAbs := by rw [← had.2.2.2, ← hbd.2.2.2]
    omega
  · exact sign_clash hah hbd
  · exact (sign_clash hbh had).symm
  · have : a.natAbs = b.natAbs := by rw [← had.2.2.2, ← hbd.2.2.2]
    omega

theorem Itoa_injective {a b : Int} (h : Itoa a = Itoa b) : a = b :=
  IsDecimalInt_unique (Itoa_isDecimalInt a) (h ▸ Itoa_isDecimalInt b)

theorem Itoa_no_comma (a : Int) : ',' ∉ (Itoa a).data := by
  have hd : ∀ c ∈ formatBits a.natAbs, c.isDigit = true := (formatBits_isDecimal _).2.1
  have hc : ',' ∉ formatBits a.natAbs := fun hmem => absurd (hd _ hmem) (by decide)
  unfold Itoa
  split
  · simp only [List.mem_cons, not_or]
    exact ⟨by decide, hc⟩
  · exact hc

/-- The text `<a>,<b>)` determines the two integers. -/
theorem bounds_text_unique {a b a2 b2 : Int}
    (h : (Itoa a).data ++ ',' :: ((Itoa b).data ++ [')']) =
      (Itoa a2).data ++ ',' :: ((Itoa b2).data ++ [')'])) : a = a2 ∧ b = b2 := by
  have hz : ',' ∉ (Itoa b).data ++ [')'] := by
    rw [List.mem_append, not_or]
    exact ⟨Itoa_no_comma b, by decide⟩
  obtain ⟨h1, -, h2⟩ := (List.append_cons_inj_of_not_mem (Itoa_no_comma a) hz).mp h
  exact ⟨Itoa_injective (String.ext h1), Itoa_injective (String.ext (List.append_cancel_right h2))⟩

theorem NewOutOfRange_Error_injective {e : String} {a b a2 b2 : Int}
    (h : (NewOutOfRange e a b).Error = (NewOutOfRange e a2 b2).Error) : a = a2 ∧ b = b2 := by
  simp only [NewOutOfRange, Error.Error] at h
  have hd := congrArg String.data h
  simp only [String.data_append, List.append_assoc] at hd
  have h1 := List.append_cancel_left (List.append_cancel_left hd)
  exact bounds_text_unique h1

/-- C10: two out-of-range errors for one entity with different bounds are not
equal under `errors.Is`, and their descriptions differ. -/
theorem NewOutOfRange_different_bounds (e : String) (a b a2 b2 : Int)
    (h : (a, b) ≠ (a2, b2)) :
    errorsIs (some (NewOutOfRange e a b)) (some (NewOutOfRange e a2 b2)) = false ∧
    (NewOutOfRange e a b).Error ≠ (NewOutOfRange e a2 b2).Error := by
  have hne : (NewOutOfRange e a b).Error ≠ (NewOutOfRange e a2 b2).Error := by
    intro heq
    obtain ⟨h1, h2⟩ := NewOutOfRange_Error_injective heq
    exact h (by rw [h1, h2])
  refine ⟨?_, hne⟩
  rw [Bool.eq_false_iff]
  intro hIs
  simp only [errorsIs, Error.eq, Bool.and_eq_true, beq_iff_eq] at hIs
  exact hne hIs.2

/-- Witness of C10 at the bounds `[1,50)` and `[1,100)` for the entity
`foo`. -/
theorem NewOutOfRange_different_bounds_witness :
    ((1 : Int), (50 : Int)) ≠ (1, 100) ∧
    errorsIs (some (NewOutOfRange "foo" 1 50)) (some (NewOutOfRange "foo" 1 100)) = false ∧
    (NewOutOfRange "foo" 1 50).Error ≠ (NewOutOfRange "foo" 1 100).Error :=
  ⟨by decide, NewOutOfRange_different_bounds "foo" 1 50 1 100 (by decide)⟩

/-! ## Already-exists errors -/

theorem NewAlreadyExists_Error_injective {e1 e2 : String}
    (h : (NewAlreadyExists e1).Error = (NewAlreadyExists e2).Error) : e1 = e2 := by
  simp only [NewAlreadyExists, Error.Error, entityDesc_append] at h
  by_cases h1 : e1 = "" <;> by_cases h2 : e2 = ""
  · rw [h1, h2]
  · rw [if_pos h1, if_neg h2] at h
    have hl := congrArg String.length h
    rw [String.length_append] at hl
    have l1 : "already exists".length = 14 := by decide
    have l2 : (" " ++ "already exists" : String).length = 15 := by decide
    rw [l1, l2] at hl
    omega
  · rw [if_neg h1, if_pos h2] at h
    have hl := congrArg String.length h
    rw [String.length_append] at hl
    have l1 : "already exists".length = 14 := by decide
    have l2 : (" " ++ "already exists" : String).length = 15 := by decide
    rw [l1, l2] at hl
    omega
  · rw [if_neg h1, if_neg h2] at h
    have hd := congrArg String.data h
    simp only [String.data_append] at hd
    exact String.ext (List.append_cancel_right hd)

/-- C11: two already-exists errors are equal under `errors.Is` exactly when
they are built for the same entity, and their descriptions are equal exactly
when the entities are (so different entities give different descriptions). -/
theorem NewAlreadyExists_equal_iff_same_entity (e1 e2 : String) :
    (errorsIs (some (NewAlreadyExists e1)) (some (NewAlreadyExists e2)) = true ↔ e1 = e2) ∧
    ((NewAlreadyExists e1).Error = (NewAlreadyExists e2).Error ↔ e1 = e2) := by
  constructor
  · constructor
    · intro h
      simp only [errorsIs, Error.eq, Bool.and_eq_true, beq_iff_eq] at h
      exact h.1.2
    · intro h
      rw [h]
      simp [errorsIs, Error.eq]
  · exact ⟨NewAlreadyExists_Error_injective, fun h => by rw [h]⟩

/-! ## A single empty expected type -/

/-- C12: a single empty-string expected type renders the same as no expected
type: `NewInvalidFormat(e, "")` has the description of `NewInvalidFormat(e)`,
which is the template with the empty bracket list. -/
theorem NewInvalidFormat_single_empty (e : String) :
    (NewInvalidFormat e [""]).Error = (NewInvalidFormat e []).Error ∧
    (NewInvalidFormat e [""]).Error =
      (if e = "" then "invalid format, expected []"
        else e ++ " contains an invalid format, expected []") ∧
    (NewInvalidFormat "baz" [""]).Error = "baz contains an invalid format, expected []" ∧
    (NewInvalidFormat "" [""]).Error = "invalid format, expected []" := by
  refine ⟨rfl, ?_, by decide, by decide⟩
  simp only [NewInvalidFormat, Error.Error, entityDesc_append, stringsJoin]
  by_cases h : e = ""
  · simp [h]
  · simp [h, String.append_assoc]

/-! ## Errors of different constructors -/

/-- C13: the errors two different constructors return are never equal under
`errors.Is`, whatever the arguments. -/
theorem different_constructors_not_equal (c1 c2 : Call) (h : c1.ctor ≠ c2.ctor) :
    errorsIs (some c1.run) (some c2.run) = false := by
  cases c1 <;> cases c2 <;> first
    | exact absurd rfl h
    | rfl

/-- Witness of C13 at `NewDomain("foo", "foo not found")` and
`NewNotFound("foo")`, which agree on entity and description. -/
theorem different_constructors_not_equal_witness :
    (Call.NewDomain "foo" "foo not found").ctor ≠ (Call.NewNotFound "foo").ctor ∧
    (NewDomain "foo" "foo not found").Entity = (NewNotFound "foo").Entity ∧
    (NewDomain "foo" "foo not found").Error = (NewNotFound "foo").Error ∧
    errorsIs (some (Call.NewDomain "foo" "foo not found").run)
      (some (Call.NewNotFound "foo").run) = false :=
  ⟨by decide, by decide, by decide,
    different_constructors_not_equal (Call.NewDomain "foo" "foo not found")
      (Call.NewNotFound "foo") (by decide)⟩

/-! ## Arbitrary `Error` values -/

/-- C14: for every `Error` value, built by a constructor or not, at most one of
the five kind predicates is true, and `IsDomain()` and `IsInfrastructure()`
are not both true. -/
theorem predicates_exclusive_on_every_value (x : Error) :
    (x.kindPredicates.filter id).length ≤ 1 ∧
    (x.IsDomain && x.IsInfrastructure) = false := by
  obtain ⟨g, k, e, d⟩ := x
  constructor
  · simp only [Error.kindPredicates, Error.IsNotFound, Error.IsAlreadyExists,
      Error.IsOutOfRange, Error.IsInvalidFormat, Error.IsRequired]
    by_cases h1 : k = notFound
    · subst h1; decide
    by_cases h2 : k = alreadyExists
    · subst h2; decide
    by_cases h3 : k = outOfRange
    · subst h3; decide
    by_cases h4 : k = invalidFormat
    · subst h4; decide
    by_cases h5 : k = required
    · subst h5; decide
    simp [h1, h2, h3, h4, h5]
  · simp only [Error.IsDomain, Error.IsInfrastructure]
    by_cases hg : g = domain
    · subst hg; decide
    · simp [hg]

/-! ## The zero value -/

/-- C15: the zero-value `Error` is in no group and has no kind, its
description and entity are empty, and it is not equal under `errors.Is`, on
either side, to the error any of the seven constructors returns. -/
theorem zero_value_unclassified (c : Call) :
    Error.zero.IsDomain = false ∧ Error.zero.IsInfrastructure = false ∧
    Error.zero.IsNotFound = false ∧ Error.zero.IsAlreadyExists = false ∧
    Error.zero.IsOutOfRange = false ∧ Error.zero.IsInvalidFormat = false ∧
    Error.zero.IsRequired = false ∧
    Error.zero.Error = "" ∧ Error.zero.Entity = "" ∧
    errorsIs (some Error.zero) (some c.run) = false ∧
    errorsIs (some c.run) (some Error.zero) = false := by
  refine ⟨by decide, by decide, by decide, by decide, by decide, by decide, by decide,
    rfl, rfl, ?_, ?_⟩
  · cases c <;> rfl
  · cases c <;> rfl

/-! ## Invalid-format errors and their expected types -/

/-- C16: `NewInvalidFormat` does not keep its list of expected types: two
different lists can give equal errors (`["a,b"]` and `["a", "b"]`, or `[]` and
`[""]`); two invalid-format errors are equal under `errors.Is` exactly when
the entities are equal and the comma-joined lists are the same string. -/
theorem NewInvalidFormat_equal_iff (e1 e2 : String) (ts1 ts2 : List String) :
    (errorsIs (some (NewInvalidFormat e1 ts1)) (some (NewInvalidFormat e2 ts2)) = true ↔
      (e1 = e2 ∧ commaSeparated ts1 = commaSeparated ts2)) ∧
    (∃ (e : String) (us1 us2 : List String), us1 ≠ us2 ∧
      errorsIs (some (NewInvalidFormat e us1)) (some (NewInvalidFormat e us2)) = true) ∧
    ((["a,b"] : List String) ≠ ["a", "b"] ∧
      errorsIs (some (NewInvalidFormat "foo" ["a,b"]))
        (some (NewInvalidFormat "foo" ["a", "b"])) = true) ∧
    (([] : List String) ≠ [""] ∧
      errorsIs (some (NewInvalidFormat "foo" [])) (some (NewInvalidFormat "foo" [""])) = true) := by
  refine ⟨?_, ⟨"foo", [], [""], by decide, by decide⟩, ⟨by decide, by decide⟩,
    ⟨by decide, by decide⟩⟩
  rw [← stringsJoin_comma, ← stringsJoin_comma]
  constructor
  · intro h
    simp only [errorsIs, Error.eq, Bool.and_eq_true, beq_iff_eq] at h
    have he : e1 = e2 := h.1.2
    subst he
    exact ⟨rfl, (NewInvalidFormat_Error_eq_iff e1 ts1 ts2).mp h.2⟩
  · rintro ⟨he, hj⟩
    subst he
    have hd := (NewInvalidFormat_Error_eq_iff e1 ts1 ts2).mpr hj
    simp only [errorsIs, Error.eq, Bool.and_eq_true, beq_iff_eq]
    exact ⟨⟨⟨rfl, rfl⟩, rfl⟩, hd⟩

/-! ## The event `MovieCreated` -/

/-- C17: `NewMovieCreated(id, name, director, year)` returns, at any reading of
the clock, an event whose `ID`, `DisplayName`, `Director` and `ReleaseYear` are
the given values and whose `AggregateID()` is the given id; `Kind()` is
`movie-created` for the returned event and for every `MovieCreated` value. -/
theorem NewMovieCreated_fields (now : Time) (id : MovieID) (name director : DisplayName)
    (year : ReleaseYear) (c : MovieCreated) :
    (NewMovieCreated now id name director year).ID = id ∧
    (NewMovieCreated now id name director year).DisplayName = name ∧
    (NewMovieCreated now id name director year).Director = director ∧
    (NewMovieCreated now id name director year).ReleaseYear = year ∧
    (NewMovieCreated now id name director year).AggregateID = id ∧
    (NewMovieCreated now id name director year).Kind = "movie-created" ∧
    c.Kind = "movie-created" :=
  ⟨rfl, rfl, rfl, rfl, rfl, rfl, rfl⟩

end Academy
